import Mathlib

/-!
Verification of the connector framework of the `unlock-platform` repository:
the cursor-driven pagination loop (`BaseConnector.fetch_data`), credential
resolution and `connect` (`base.py`), the retrying transport
(`_request_with_retry`), the token-bucket rate limiter (`rate_limit.py`),
and the RB2B enrichment-endpoint whitelist (`rb2b.py`).

Python records (`dict`) are abstracted by a type parameter `α`; cursors are
`Option String` (Python `str | None`), with Python truthiness of a cursor
modelled explicitly; machine floats of the rate limiter are modelled as `ℚ`
(the claims are about the exact algorithm, not rounding); exceptions are
`Except String`.
-/

/-- Python truthiness of a `str | None` cursor: `None` and `""` are falsy. -/
def pyTruthy : Option String → Bool
  | none => false
  | some s => !s.isEmpty

/-- `unlock_shared.source_models.FetchRequest` (the fields `fetch_data` reads). -/
structure FetchRequest where
  sourceId : String
  maxPages : Nat
deriving Repr, DecidableEq

/-- `unlock_shared.source_models.FetchResult`. `records` is `list[dict]`;
the record type is abstracted by `α`. Defaults as in the Pydantic model. -/
structure FetchResult (α : Type) where
  success : Bool
  message : String
  sourceId : String
  records : List α
  recordCount : Nat
  hasMore : Bool
deriving Repr, DecidableEq

/-- A provider's single-page fetch (`_fetch_page`): given the number of pages
already fetched (the call index, so stateful providers are covered) and the
current cursor, it returns the page's normalized records and the next cursor,
or raises (`Except.error`). -/
def PageFetcher (α : Type) : Type :=
  Nat → Option String → Except String (List α × Option String)

/-- Outcome of the `while pages_fetched < request.max_pages` loop in
`BaseConnector.fetch_data`: the accumulated records, the final values of the
`pages_fetched` and `cursor` variables, the exception if one escaped the
loop, and the number of `_fetch_page` invocations made. -/
structure LoopResult (α : Type) where
  allRecords : List α
  pagesFetched : Nat
  cursor : Option String
  err : Option String
  calls : Nat
deriving Repr, DecidableEq

/-- The pagination loop of `BaseConnector.fetch_data` (base.py lines 173-187),
translated statement by statement.  `fuel` is `max_pages - pages_fetched`,
so the loop guard `pages_fetched < max_pages` is the `fuel = 0` case.
On each iteration: call `_fetch_page` (counting the call; an exception stops
the loop carrying the records accumulated so far), extend `all_records`,
increment `pages_fetched`, then `if not next_cursor: break` — note the
`break` leaves the `cursor` variable at its previous value — else
`cursor = next_cursor`. -/
def fetchLoop (provider : PageFetcher α) :
    Nat → Nat → List α → Option String → LoopResult α
  | 0, pages, acc, cur => ⟨acc, pages, cur, none, 0⟩
  | fuel + 1, pages, acc, cur =>
    match provider pages cur with
    | .error e => ⟨acc, pages, cur, some e, 1⟩
    | .ok (records, nextCursor) =>
      let acc := acc ++ records
      let pages := pages + 1
      if pyTruthy nextCursor then
        let r := fetchLoop provider fuel pages acc nextCursor
        { r with calls := r.calls + 1 }
      else
        ⟨acc, pages, cur, none, 1⟩

/-- `BaseConnector.fetch_data` (base.py lines 159-204).  `clientRes` models
`_get_client()` (which can raise on a missing credential); `provider` models
the subclass's `_fetch_page`.  On success the result reports
`has_more = cursor is not None`; on an exception the partial records are
returned with `success=False` and the `FetchResult` defaults
(`has_more=False`). -/
def fetchData (clientRes : Except String Unit) (provider : PageFetcher α)
    (request : FetchRequest) : FetchResult α :=
  match clientRes with
  | .error e =>
    { success := false
      message := "Fetch failed: " ++ e
      sourceId := request.sourceId
      records := []
      recordCount := 0
      hasMore := false }
  | .ok _ =>
    let r := fetchLoop provider request.maxPages 0 [] none
    match r.err with
    | some e =>
      { success := false
        message := "Fetch failed: " ++ e
        sourceId := request.sourceId
        records := r.allRecords
        recordCount := r.allRecords.length
        hasMore := false }
    | none =>
      { success := true
        message := "Fetched " ++ toString r.allRecords.length ++ " records in "
          ++ toString r.pagesFetched ++ " pages"
        sourceId := request.sourceId
        records := r.allRecords
        recordCount := r.allRecords.length
        hasMore := r.cursor.isSome }

/-! ## Token bucket rate limiter (`rate_limit.py`) -/

/-- `TokenBucket` state (`rate_limit.py`).  The `_last_refill` timestamp is
replaced by passing the elapsed durations explicitly to `refill`/`acquire`. -/
structure TokenBucket where
  rate : ℚ
  capacity : ℚ
  tokens : ℚ
deriving Repr, DecidableEq

/-- `TokenBucket.__init__` (rate_limit.py lines 26-31): stores `rate`
unchecked, defaults `capacity` to `rate`, and starts with a full bucket. -/
def TokenBucket.init (rate : ℚ) (capacity : Option ℚ) : TokenBucket :=
  let c := capacity.getD rate
  { rate := rate, capacity := c, tokens := c }

/-- `TokenBucket._refill` (rate_limit.py lines 43-48), with the elapsed time
since the last refill passed explicitly:
`tokens = min(capacity, tokens + elapsed * rate)`. -/
def TokenBucket.refill (b : TokenBucket) (elapsed : ℚ) : TokenBucket :=
  { b with tokens := min b.capacity (b.tokens + elapsed * b.rate) }

/-- `TokenBucket.acquire` (rate_limit.py lines 33-41).  `e1` is the elapsed
time since the last refill at entry; `e2` is the elapsed time spent in
`asyncio.sleep(wait_time)` (only relevant when the sleep branch is taken).
Refill, sleep-and-refill-again if fewer than one token, then consume one. -/
def TokenBucket.acquire (b : TokenBucket) (e1 e2 : ℚ) : TokenBucket :=
  let b1 := b.refill e1
  let b2 := if b1.tokens < 1 then b1.refill e2 else b1
  { b2 with tokens := b2.tokens - 1 }

/-- The elapsed durations `(e1, e2)` describe a real execution of `acquire`:
time does not go backwards, and when the sleep branch is taken the monotonic
clock advances by at least `wait_time = (1 - tokens) / rate`. -/
def TokenBucket.validStep (b : TokenBucket) (e1 e2 : ℚ) : Prop :=
  0 ≤ e1 ∧ ((b.refill e1).tokens < 1 → (1 - (b.refill e1).tokens) / b.rate ≤ e2)

instance (b : TokenBucket) (e1 e2 : ℚ) : Decidable (b.validStep e1 e2) := by
  unfold TokenBucket.validStep
  infer_instance

/-- Run a sequence of `acquire` calls, each with its pair of elapsed
durations. -/
def TokenBucket.acquireTrace (b : TokenBucket) : List (ℚ × ℚ) → TokenBucket
  | [] => b
  | (e1, e2) :: rest => (b.acquire e1 e2).acquireTrace rest

/-- Every step of the trace is a real execution of `acquire`. -/
def TokenBucket.validTrace (b : TokenBucket) : List (ℚ × ℚ) → Prop
  | [] => True
  | (e1, e2) :: rest => b.validStep e1 e2 ∧ (b.acquire e1 e2).validTrace rest

instance TokenBucket.decValidTrace :
    (b : TokenBucket) → (l : List (ℚ × ℚ)) → Decidable (b.validTrace l)
  | _, [] => .isTrue trivial
  | b, (e1, e2) :: rest =>
    have : Decidable ((b.acquire e1 e2).validTrace rest) :=
      TokenBucket.decValidTrace _ rest
    inferInstanceAs (Decidable (_ ∧ _))

/-! ## Credential resolution and `connect` (`base.py`) -/

/-- A Python single-quoted interpolation, `'{s}'`. -/
def pyQuote (s : String) : String := "\x27" ++ s ++ "\x27"

/-- `unlock_shared.source_models.SourceConfig` (the fields the base connector
reads). -/
structure SourceConfig where
  sourceId : String
  sourceType : String
  baseUrl : Option String
  authEnvVar : Option String
  rateLimitPerSecond : ℚ
deriving Repr, DecidableEq

/-- `unlock_shared.source_models.ConnectionResult`. -/
structure ConnectionResult where
  success : Bool
  message : String
  sourceId : String
  sourceType : String
deriving Repr, DecidableEq

/-- `BaseConnector._resolve_credential` (base.py lines 59-67).  The process
environment is modelled as `env : String → String`, with `""` for an unset
variable (exactly `os.environ.get(env_var, "")`). -/
def resolveCredential (env : String → String) (config : SourceConfig) :
    Except String String :=
  let envVar := config.authEnvVar.getD ""
  if envVar.isEmpty then
    .error ("No auth_env_var configured for source " ++ pyQuote config.sourceId)
  else
    let value := env envVar
    if value.isEmpty then
      .error ("Environment variable " ++ pyQuote envVar ++ " is not set or empty")
    else
      .ok value

/-- The httpx client as far as the framework observes it: base URL and auth
headers. -/
structure HTTPClient where
  baseUrl : String
  headers : List (String × String)

/-- `BaseConnector._get_base_url` (base.py lines 69-73): prefer a truthy
config override, else the adapter's default. -/
def getBaseUrl (config : SourceConfig) (defaultBaseUrl : String) : String :=
  match config.baseUrl with
  | some s => if s.isEmpty then defaultBaseUrl else s
  | none => defaultBaseUrl

/-- `BaseConnector._get_client` (base.py lines 104-114) for a fresh connector
(`_client is None`): resolve the credential (which may raise), build auth
headers, construct the client.  No network request is made here. -/
def getClient (env : String → String) (config : SourceConfig)
    (authHeaders : String → List (String × String)) (defaultBaseUrl : String) :
    Except String HTTPClient :=
  match resolveCredential env config with
  | .error e => .error e
  | .ok credential =>
    .ok { baseUrl := getBaseUrl config defaultBaseUrl
          headers := authHeaders credential }

/-- `BaseConnector.connect` (base.py lines 142-153).  `checkConnection`
models the subclass's `_check_connection`, returning its result (or raising)
together with the number of outbound HTTP requests it performed.  The second
component of `connect`'s result is the total number of outbound HTTP
requests attempted. -/
def connect (env : String → String) (config : SourceConfig)
    (authHeaders : String → List (String × String)) (defaultBaseUrl : String)
    (checkConnection : HTTPClient → Except String ConnectionResult × Nat) :
    ConnectionResult × Nat :=
  match getClient env config authHeaders defaultBaseUrl with
  | .error e =>
    ({ success := false
       message := "Connection failed: " ++ e
       sourceId := config.sourceId
       sourceType := config.sourceType }, 0)
  | .ok client =>
    match checkConnection client with
    | (.ok r, n) => (r, n)
    | (.error e, n) =>
      ({ success := false
         message := "Connection failed: " ++ e
         sourceId := config.sourceId
         sourceType := config.sourceType }, n)

/-! ## Retrying transport (`BaseConnector._request_with_retry`, base.py 122-140) -/

/-- The two classes of error an attempt can raise: a transient
transport-level error (`httpx.TransportError` / `httpx.TimeoutException`,
which tenacity retries) and a status error from `raise_for_status`
(`httpx.HTTPStatusError`, which is not retried). -/
inductive ReqError where
  | transient (e : String)
  | status (e : String)
deriving Repr, DecidableEq

/-- Per-adapter observable side effects of the transport: the number of
`rate_limiter.acquire()` calls and the `request_count` counter. -/
structure TransportState where
  acquires : Nat
  requestCount : Nat
deriving Repr, DecidableEq

/-- The tenacity retry loop around the body of `_request_with_retry`.
`outcomes i` is what attempt `i` (0-based) would produce once the request is
actually issued.  Each attempt first runs `rate_limiter.acquire()` and
increments `request_count`, then issues the request.  A successful response
is returned; a status error is raised without retry
(`retry_if_exception_type` matches only transient errors); a transient error
is retried while attempts remain, and reraised (`reraise=True`) once
`stop_after_attempt` is hit.  Returns (result, attempts made, final state).
The fuel is the number of attempts still allowed. -/
def retryLoop (outcomes : Nat → Except ReqError ρ) (attemptIdx : Nat)
    (s : TransportState) : Nat → Except ReqError ρ × Nat × TransportState
  | 0 => (.error (.status "retry loop entered with no attempts"), 0, s)
  | remaining + 1 =>
    let s1 : TransportState :=
      { acquires := s.acquires + 1, requestCount := s.requestCount + 1 }
    match outcomes attemptIdx with
    | .ok r => (.ok r, 1, s1)
    | .error (.status e) => (.error (.status e), 1, s1)
    | .error (.transient e) =>
      if remaining = 0 then (.error (.transient e), 1, s1)
      else
        let (res, n, s2) := retryLoop outcomes (attemptIdx + 1) s1 remaining
        (res, n + 1, s2)

/-- `BaseConnector._request_with_retry`: the retry loop with
`stop_after_attempt(3)`. -/
def requestWithRetry (outcomes : Nat → Except ReqError ρ) (s : TransportState) :
    Except ReqError ρ × Nat × TransportState :=
  retryLoop outcomes 0 s 3

/-! ## RB2B enrichment whitelist (`rb2b.py`) -/

/-- `ENRICHMENT_ENDPOINTS` (rb2b.py lines 59-73), in source order: each
enrichment endpoint name mapped to its required input field. -/
def ENRICHMENT_ENDPOINTS : List (String × String) :=
  [("ip_to_hem", "ip_address"),
   ("ip_to_maid", "ip_address"),
   ("ip_to_company", "ip_address"),
   ("hem_to_best_linkedin", "email"),
   ("hem_to_business_profile", "email"),
   ("hem_to_linkedin", "md5"),
   ("hem_to_maid", "md5"),
   ("linkedin_to_best_personal_email", "linkedin_slug"),
   ("linkedin_to_hashed_emails", "linkedin_slug"),
   ("linkedin_to_mobile_phone", "linkedin_slug"),
   ("linkedin_to_personal_email", "linkedin_slug"),
   ("linkedin_to_business_profile", "linkedin_slug"),
   ("linkedin_slug_search", "company_domain")]

/-- Insert a string into a lexicographically sorted list (for Python
`sorted`). -/
def insertSorted (s : String) : List String → List String
  | [] => [s]
  | t :: ts => if s < t then s :: t :: ts else t :: insertSorted s ts

/-- Lexicographic insertion sort, modelling Python `sorted` on the dict
keys. -/
def sortStrings : List String → List String
  | [] => []
  | s :: ss => insertSorted s (sortStrings ss)

/-- Python `sep.join(parts)`: the parts concatenated with `sep` between
consecutive parts. -/
def joinWith (sep : String) : List String → String
  | [] => ""
  | [s] => s
  | s :: t :: rest => s ++ sep ++ joinWith sep (t :: rest)

/-- The `', '.join(sorted(ENRICHMENT_ENDPOINTS))` part of the unknown
resource_type message. -/
def rb2bValidTypes : String :=
  joinWith ", " (sortStrings (ENRICHMENT_ENDPOINTS.map Prod.fst))

/-- The `ValueError` message raised by `RB2BConnector._enrich` for an
endpoint outside the whitelist (rb2b.py lines 140-144). -/
def rb2bUnknownMsg (endpoint : String) : String :=
  "Unknown RB2B resource_type " ++ pyQuote endpoint ++ ". Valid types: "
    ++ rb2bValidTypes

/-- Shapes the enrichment response body's `results`/`result` value can take
(rb2b.py lines 160-173): missing/null, a JSON list, a JSON object, or a
scalar (which the code wraps as a one-key record, here already wrapped). -/
inductive RB2BResults (ρ : Type) where
  | missing
  | list (rs : List ρ)
  | dict (r : ρ)
  | scalar (wrapped : ρ)

/-- Normalization of the enrichment response to `(records, next_cursor)`
(rb2b.py lines 160-173); enrichment calls are single-shot, so the cursor is
always `none`. -/
def rb2bNormalizeResults : RB2BResults ρ → List ρ × Option String
  | .missing => ([], none)
  | .list rs => (rs, none)
  | .dict r => ([r], none)
  | .scalar w => ([w], none)

/-- `RB2BConnector._enrich` (rb2b.py lines 127-173).  `configGet` is lookup
in the parsed `config_json` dict (string values); `doRequest method path`
models `_request_with_retry` issuing one outbound HTTP request.  The second
component counts outbound HTTP requests issued.  Validation of the endpoint
name and of the required input field happens before any request. -/
def rb2bEnrich (endpoint : String) (configGet : String → Option String)
    (doRequest : String → String → Except String (RB2BResults ρ)) :
    Except String (List ρ × Option String) × Nat :=
  if (ENRICHMENT_ENDPOINTS.map Prod.fst).contains endpoint then
    let inputField := (ENRICHMENT_ENDPOINTS.lookup endpoint).getD ""
    if pyTruthy (configGet inputField) then
      match doRequest "POST" endpoint with
      | .error e => (.error e, 1)
      | .ok results => (.ok (rb2bNormalizeResults results), 1)
    else
      (.error ("RB2B " ++ endpoint ++ " requires " ++ pyQuote inputField
        ++ " in config_json"), 0)
  else
    (.error (rb2bUnknownMsg endpoint), 0)

/-- `RB2BConnector._fetch_page` (rb2b.py lines 108-125): dispatch on the
`mode` config key (default `"api"`); file mode reads a local dump (no
network), API mode calls `_enrich`. -/
def rb2bFetchPage (configGet : String → Option String) (resourceType : String)
    (readFileDump : Unit → Except String (List ρ))
    (doRequest : String → String → Except String (RB2BResults ρ)) :
    Except String (List ρ × Option String) × Nat :=
  let mode := (configGet "mode").getD "api"
  if mode = "file" then
    match readFileDump () with
    | .error e => (.error e, 0)
    | .ok rs => (.ok (rs, none), 0)
  else
    rb2bEnrich resourceType configGet doRequest

/-! ## Theorems -/

/-- A provider that yields page 1 with a next cursor and then signals
exhaustion (no cursor) on page 2. -/
def providerC1 : PageFetcher Nat := fun i _ =>
  if i = 0 then .ok ([1], some "c1") else .ok ([2], none)

/-- C1: refuted on the code.  The claim says `has_more = false` whenever the
provider signals exhaustion (returns no next cursor), regardless of how many
pages were fetched.  But when exhaustion happens on page 2, the loop's
`break` leaves the `cursor` variable holding page 1's cursor, so
`has_more = cursor is not None` is reported `true`: here the provider
signals exhaustion on its second page, both pages are fetched, and the
returned `FetchResult` still has `has_more = true`. -/
theorem C1_exhaustion_still_reports_has_more :
    providerC1 1 (some "c1") = .ok ([2], none) ∧
    fetchData (.ok ()) providerC1 ⟨"s", 10⟩ =
      ⟨true, "Fetched 2 records in 2 pages", "s", [1, 2], 2, true⟩ := by
  constructor
  · rfl
  · decide

/-- A 3-page provider sequence: page 1 with cursor `c1`, page 2 with cursor
`c2`, page 3 with no cursor. -/
def providerC2 : PageFetcher Nat := fun i _ =>
  if i = 0 then .ok ([1, 2], some "c1")
  else if i = 1 then .ok ([3], some "c2")
  else .ok ([4, 5], none)

/-- C2: refuted on the code.  For the 3-page sequence with `max_pages = 10`,
`fetch_data` does return `success = true`, the concatenation of the three
pages' records in page order, and the matching `record_count` — but
`has_more = true`, not `false` as claimed, because the `cursor` variable
still holds page 2's cursor when the loop breaks on page 3's empty next
cursor. -/
theorem C2_three_page_fetch_eval :
    fetchData (.ok ()) providerC2 ⟨"s", 10⟩ =
      ⟨true, "Fetched 5 records in 3 pages", "s", [1, 2, 3, 4, 5], 5, true⟩ := by
  decide

/-- C3: refuted on the code.  `TokenBucket.__init__` performs no validation:
constructing a bucket with `rate = 0` succeeds and produces an instance
(with `capacity = tokens = 0`) instead of rejecting the value with an
error. -/
theorem C3_init_rate_zero_succeeds :
    TokenBucket.init 0 none = { rate := 0, capacity := 0, tokens := 0 } := rfl

/-- The pagination loop makes at most `fuel` single-page fetch calls. -/
theorem fetchLoop_calls_le (provider : PageFetcher α) :
    ∀ (fuel pages : Nat) (acc : List α) (cur : Option String),
      (fetchLoop provider fuel pages acc cur).calls ≤ fuel := by
  intro fuel
  induction fuel with
  | zero => intro pages acc cur; simp [fetchLoop]
  | succ n ih =>
    intro pages acc cur
    simp only [fetchLoop]
    match h : provider pages cur with
    | .error e => simp [h]
    | .ok (records, nextCursor) =>
      simp only [h]
      by_cases ht : pyTruthy nextCursor
      · simpa [ht] using Nat.succ_le_succ (ih _ _ _)
      · simp [ht]

/-- C4: for every provider page sequence (stateful and cursor-dependent
alike) and every request, the pagination loop run by `fetch_data` invokes
the adapter's single-page fetch at most `max_pages` times (the call that
raises, if any, included). -/
theorem C4_fetch_calls_le_max_pages (provider : PageFetcher α)
    (request : FetchRequest) :
    (fetchLoop provider request.maxPages 0 [] none).calls ≤ request.maxPages :=
  fetchLoop_calls_le provider request.maxPages 0 [] none

set_option maxRecDepth 4000 in
/-- C5: if the single-page fetch succeeds on page 1 (returning records `r1`
and a non-empty cursor) and raises on page 2, and at least two pages were
allowed, then `fetch_data` returns (rather than raising) a result with
`success = false`, exactly page 1's records and their count, `has_more =
false`, and the non-empty message `"Fetch failed: <error>"`. -/
theorem C5_midpagination_failure_keeps_partial (provider : PageFetcher α)
    (request : FetchRequest) (r1 : List α) (c1 e : String)
    (h0 : provider 0 none = .ok (r1, some c1))
    (hc : c1.isEmpty = false)
    (h1 : provider 1 (some c1) = .error e)
    (hm : 2 ≤ request.maxPages) :
    fetchData (.ok ()) provider request =
      ⟨false, "Fetch failed: " ++ e, request.sourceId, r1, r1.length, false⟩ ∧
    ("Fetch failed: " ++ e) ≠ "" := by
  obtain ⟨k, hk⟩ : ∃ k, request.maxPages = k + 2 :=
    ⟨request.maxPages - 2, by omega⟩
  refine ⟨?_, ?_⟩
  · simp [fetchData, hk, fetchLoop, h0, h1, pyTruthy, hc]
  · intro hcontra
    have hlen := congrArg String.length hcontra
    rw [String.length_append] at hlen
    have h14 : ("Fetch failed: " : String).length = 14 := rfl
    have hz : ("" : String).length = 0 := rfl
    omega

/-- A provider that succeeds on page 1 and raises on page 2. -/
def providerC5 : PageFetcher Nat := fun i _ =>
  if i = 0 then .ok ([10], some "c1") else .error "boom"

/-- Witness for C5 at a concrete mid-pagination failure. -/
theorem C5_witness :
    fetchData (.ok ()) providerC5 ⟨"s", 10⟩ =
      ⟨false, "Fetch failed: " ++ "boom", "s", [10], 1, false⟩ ∧
    ("Fetch failed: " ++ "boom") ≠ "" :=
  C5_midpagination_failure_keeps_partial providerC5 ⟨"s", 10⟩ [10] "c1" "boom"
    rfl rfl rfl (by decide)

/-- C6: if the configured `auth_env_var` names a variable that is unset or
empty in the environment, `connect()` returns `success = false` with a
message containing the variable's name, and no outbound HTTP request is
attempted (`_check_connection`, the only network user, is never invoked, so
the request count is 0) — for every adapter (`authHeaders`,
`defaultBaseUrl`, `checkConnection` arbitrary). -/
theorem C6_connect_missing_env_var (env : String → String)
    (config : SourceConfig) (v : String)
    (authHeaders : String → List (String × String)) (defaultBaseUrl : String)
    (checkConnection : HTTPClient → Except String ConnectionResult × Nat)
    (hv : config.authEnvVar = some v)
    (hne : v.isEmpty = false)
    (hunset : env v = "") :
    connect env config authHeaders defaultBaseUrl checkConnection =
      ({ success := false
         message := "Connection failed: " ++
           ("Environment variable " ++ pyQuote v ++ " is not set or empty")
         sourceId := config.sourceId
         sourceType := config.sourceType }, 0) ∧
    (∃ p q,
      (connect env config authHeaders defaultBaseUrl checkConnection).1.message
        = p ++ v ++ q) := by
  have hres : resolveCredential env config =
      .error ("Environment variable " ++ pyQuote v ++ " is not set or empty") := by
    have hemp : ("" : String).isEmpty = true := rfl
    simp [resolveCredential, hv, hne, hunset, hemp]
  have hmain :
      connect env config authHeaders defaultBaseUrl checkConnection =
      ({ success := false
         message := "Connection failed: " ++
           ("Environment variable " ++ pyQuote v ++ " is not set or empty")
         sourceId := config.sourceId
         sourceType := config.sourceType }, 0) := by
    simp [connect, getClient, hres]
  refine ⟨hmain, ⟨"Connection failed: " ++ ("Environment variable " ++ "\x27"),
    "\x27" ++ " is not set or empty", ?_⟩⟩
  rw [hmain]
  simp only [pyQuote]
  apply String.ext
  simp [String.data_append, List.append_assoc]

/-- Witness for C6: a concrete config whose `auth_env_var` is unset in a
concrete environment. -/
theorem C6_witness :
    connect (fun _ => "") ⟨"src-1", "rb2b", none, some "RB2B_API_KEY", 5⟩
      (fun c => [("Api-Key", c)]) "https://api.rb2b.com/api/v1/"
      (fun _ => (.ok ⟨true, "ok", "src-1", "rb2b"⟩, 1)) =
      ({ success := false
         message := "Connection failed: " ++
           ("Environment variable " ++ pyQuote "RB2B_API_KEY"
             ++ " is not set or empty")
         sourceId := "src-1"
         sourceType := "rb2b" }, 0) ∧
    (∃ p q,
      (connect (fun _ => "") ⟨"src-1", "rb2b", none, some "RB2B_API_KEY", 5⟩
        (fun c => [("Api-Key", c)]) "https://api.rb2b.com/api/v1/"
        (fun _ => (.ok ⟨true, "ok", "src-1", "rb2b"⟩, 1))).1.message
        = p ++ "RB2B_API_KEY" ++ q) :=
  C6_connect_missing_env_var (fun _ => "")
    ⟨"src-1", "rb2b", none, some "RB2B_API_KEY", 5⟩ "RB2B_API_KEY"
    (fun c => [("Api-Key", c)]) "https://api.rb2b.com/api/v1/"
    (fun _ => (.ok ⟨true, "ok", "src-1", "rb2b"⟩, 1)) rfl rfl rfl

/-- Counter lemma for the retry loop: it makes between 1 and `fuel` attempts
(for positive fuel), and each attempt performs exactly one
`rate_limiter.acquire()` and one `request_count` increment. -/
theorem retryLoop_counters (outcomes : Nat → Except ReqError ρ) :
    ∀ (fuel attemptIdx : Nat) (s : TransportState),
      (retryLoop outcomes attemptIdx s fuel).2.1 ≤ fuel ∧
      (retryLoop outcomes attemptIdx s fuel).2.2.acquires =
        s.acquires + (retryLoop outcomes attemptIdx s fuel).2.1 ∧
      (retryLoop outcomes attemptIdx s fuel).2.2.requestCount =
        s.requestCount + (retryLoop outcomes attemptIdx s fuel).2.1 := by
  intro fuel
  induction fuel with
  | zero => intro attemptIdx s; simp [retryLoop]
  | succ n ih =>
    intro attemptIdx s
    simp only [retryLoop]
    match h : outcomes attemptIdx with
    | .ok r => simp [h]
    | .error (.status e) => simp [h]
    | .error (.transient e) =>
      by_cases hn : n = 0
      · simp [h, hn]
      · have hrec := ih (attemptIdx + 1) ⟨s.acquires + 1, s.requestCount + 1⟩
        simp only [h, hn, if_false, reduceIte]
        rcases hr3 : retryLoop outcomes (attemptIdx + 1)
            ⟨s.acquires + 1, s.requestCount + 1⟩ n with ⟨res, cnt, s2⟩
        rw [hr3] at hrec
        simp at hrec ⊢
        omega

set_option maxRecDepth 8000 in
/-- C7: the retrying transport makes at most 3 attempts in total, every
attempt passes through the rate limiter's `acquire` and increments the
per-adapter request counter (both counters advance by exactly the number of
attempts), a success returns after one attempt, a non-transient status error
(HTTP 4xx/5xx from `raise_for_status`) is propagated after one attempt with
no retry, and when all three attempts raise transient transport errors the
third error is propagated rather than swallowed. -/
theorem C7_retry_transport_contract (outcomes : Nat → Except ReqError ρ)
    (s : TransportState) :
    (requestWithRetry outcomes s).2.1 ≤ 3 ∧
    (requestWithRetry outcomes s).2.2.acquires =
      s.acquires + (requestWithRetry outcomes s).2.1 ∧
    (requestWithRetry outcomes s).2.2.requestCount =
      s.requestCount + (requestWithRetry outcomes s).2.1 ∧
    (∀ r, outcomes 0 = .ok r →
      requestWithRetry outcomes s =
        (.ok r, 1, ⟨s.acquires + 1, s.requestCount + 1⟩)) ∧
    (∀ e, outcomes 0 = .error (.status e) →
      requestWithRetry outcomes s =
        (.error (.status e), 1, ⟨s.acquires + 1, s.requestCount + 1⟩)) ∧
    (∀ e0 e1 e2, outcomes 0 = .error (.transient e0) →
        outcomes 1 = .error (.transient e1) →
        outcomes 2 = .error (.transient e2) →
      requestWithRetry outcomes s =
        (.error (.transient e2), 3, ⟨s.acquires + 3, s.requestCount + 3⟩)) := by
  obtain ⟨h1, h2, h3⟩ := retryLoop_counters outcomes 3 0 s
  refine ⟨h1, h2, h3, ?_, ?_, ?_⟩
  · intro r h
    simp [requestWithRetry, retryLoop, h]
  · intro e h
    simp [requestWithRetry, retryLoop, h]
  · intro e0 e1 e2 h0 hx1 hx2
    simp [requestWithRetry, retryLoop, h0, hx1, hx2]

/-- An outcome sequence whose every attempt raises a transient transport
error. -/
def outcomesAllTransient : Nat → Except ReqError Nat :=
  fun _ => .error (.transient "connect timeout")

/-- Witness for C7: with every attempt failing transiently, the transport
stops after exactly 3 attempts, propagates the transient error, and has
acquired the rate limiter and bumped the request counter exactly 3 times. -/
theorem C7_witness :
    requestWithRetry outcomesAllTransient ⟨0, 0⟩ =
      (.error (.transient "connect timeout"), 3, ⟨3, 3⟩) :=
  ((((C7_retry_transport_contract outcomesAllTransient ⟨0, 0⟩).2).2).2.2.2)
    "connect timeout" "connect timeout" "connect timeout" rfl rfl rfl

/-- Tokens after a refill, by definition. -/
theorem TokenBucket.refill_tokens (b : TokenBucket) (e : ℚ) :
    (b.refill e).tokens = min b.capacity (b.tokens + e * b.rate) := rfl

/-- Refill does not change the capacity. -/
theorem TokenBucket.refill_capacity (b : TokenBucket) (e : ℚ) :
    (b.refill e).capacity = b.capacity := rfl

/-- Refill does not change the rate. -/
theorem TokenBucket.refill_rate (b : TokenBucket) (e : ℚ) :
    (b.refill e).rate = b.rate := rfl

/-- Acquire does not change the rate. -/
theorem TokenBucket.acquire_rate (b : TokenBucket) (e1 e2 : ℚ) :
    (b.acquire e1 e2).rate = b.rate := by
  unfold TokenBucket.acquire
  dsimp only
  split <;> rfl

/-- Acquire does not change the capacity. -/
theorem TokenBucket.acquire_capacity (b : TokenBucket) (e1 e2 : ℚ) :
    (b.acquire e1 e2).capacity = b.capacity := by
  unfold TokenBucket.acquire
  dsimp only
  split <;> rfl

/-- One `acquire` step preserves `0 ≤ tokens ≤ capacity`, provided the rate
is positive and the capacity is at least one token. -/
theorem TokenBucket.acquire_bounds (b : TokenBucket) (e1 e2 : ℚ)
    (hr : 0 < b.rate) (hcap : 1 ≤ b.capacity)
    (h0 : 0 ≤ b.tokens) (h1 : b.tokens ≤ b.capacity)
    (hv : b.validStep e1 e2) :
    0 ≤ (b.acquire e1 e2).tokens ∧ (b.acquire e1 e2).tokens ≤ b.capacity := by
  obtain ⟨he1, hsleep⟩ := hv
  have hb1_le : (b.refill e1).tokens ≤ b.capacity := by
    rw [TokenBucket.refill_tokens]; exact min_le_left _ _
  have hb1_ge : 0 ≤ (b.refill e1).tokens := by
    rw [TokenBucket.refill_tokens]
    exact le_min (by linarith) (by nlinarith [mul_nonneg he1 hr.le])
  by_cases hlt : (b.refill e1).tokens < 1
  · have hwait := hsleep hlt
    rw [div_le_iff₀ hr] at hwait
    have h2ge : 1 ≤ ((b.refill e1).refill e2).tokens := by
      rw [TokenBucket.refill_tokens, TokenBucket.refill_capacity,
        TokenBucket.refill_rate]
      exact le_min hcap (by linarith)
    have h2le : ((b.refill e1).refill e2).tokens ≤ b.capacity := by
      rw [TokenBucket.refill_tokens, TokenBucket.refill_capacity]
      exact min_le_left _ _
    have hres : (b.acquire e1 e2).tokens = ((b.refill e1).refill e2).tokens - 1 := by
      unfold TokenBucket.acquire
      dsimp only
      rw [if_pos hlt]
    rw [hres]
    constructor <;> linarith
  · have hge1 : 1 ≤ (b.refill e1).tokens := not_lt.mp hlt
    have hres : (b.acquire e1 e2).tokens = (b.refill e1).tokens - 1 := by
      unfold TokenBucket.acquire
      dsimp only
      rw [if_neg hlt]
    rw [hres]
    constructor <;> linarith

/-- C8 (amended): for every bucket with a positive rate and a capacity of at
least one token — and `0 ≤ tokens ≤ capacity` holding initially, as it does
at construction — every valid sequence of `acquire` calls (arbitrary
non-negative elapsed durations, sleeps at least `wait_time` long) leaves the
token count in `[0, capacity]`.  The `capacity ≥ 1` hypothesis is necessary:
see the counterexample with `capacity = 1/2`. -/
theorem C8_tokens_bounds (b : TokenBucket) (steps : List (ℚ × ℚ))
    (hr : 0 < b.rate) (hcap : 1 ≤ b.capacity)
    (h0 : 0 ≤ b.tokens) (h1 : b.tokens ≤ b.capacity)
    (hv : b.validTrace steps) :
    0 ≤ (b.acquireTrace steps).tokens ∧
    (b.acquireTrace steps).tokens ≤ (b.acquireTrace steps).capacity := by
  induction steps generalizing b with
  | nil => exact ⟨h0, h1⟩
  | cons step rest ih =>
    obtain ⟨e1, e2⟩ := step
    obtain ⟨hstep, hrest⟩ := hv
    have hb := TokenBucket.acquire_bounds b e1 e2 hr hcap h0 h1 hstep
    have hrate := TokenBucket.acquire_rate b e1 e2
    have hcap2 := TokenBucket.acquire_capacity b e1 e2
    simp only [TokenBucket.acquireTrace]
    exact ih (b.acquire e1 e2) (hrate ▸ hr) (hcap2 ▸ hcap) hb.1
      (hcap2 ▸ hb.2) hrest

/-- C8 counterexample: the claim as stated — for *every* TokenBucket
instance — is false.  The bucket constructed with `rate = 1/2` (so
`capacity` defaults to `1/2 < 1`) admits a valid single-`acquire` trace
(no time elapsed at entry, a 2-second sleep, well above the computed
`wait_time = 1`) after which the token count is negative: the second refill
is capped at `capacity = 1/2`, and consuming one token leaves `-1/2`. -/
theorem C8_counterexample :
    (TokenBucket.init (1/2) none).validTrace [((0 : ℚ), (2 : ℚ))] ∧
    ((TokenBucket.init (1/2) none).acquireTrace [((0 : ℚ), (2 : ℚ))]).tokens < 0 := by
  constructor
  · refine ⟨⟨by norm_num, ?_⟩, trivial⟩
    intro _
    norm_num [TokenBucket.init, TokenBucket.refill]
  · norm_num [TokenBucket.init, TokenBucket.refill, TokenBucket.acquire,
      TokenBucket.acquireTrace]

/-- Witness for the amended C8 at a concrete bucket and trace: two
back-to-back acquires from a full `rate = capacity = 5` bucket. -/
theorem C8_witness :
    0 ≤ ((TokenBucket.init 5 none).acquireTrace [((0 : ℚ), (0 : ℚ)), ((0 : ℚ), (0 : ℚ))]).tokens ∧
    ((TokenBucket.init 5 none).acquireTrace [((0 : ℚ), (0 : ℚ)), ((0 : ℚ), (0 : ℚ))]).tokens ≤
      ((TokenBucket.init 5 none).acquireTrace [((0 : ℚ), (0 : ℚ)), ((0 : ℚ), (0 : ℚ))]).capacity :=
  C8_tokens_bounds (TokenBucket.init 5 none) [((0 : ℚ), (0 : ℚ)), ((0 : ℚ), (0 : ℚ))]
    (by norm_num [TokenBucket.init]) (by norm_num [TokenBucket.init])
    (by norm_num [TokenBucket.init]) (by norm_num [TokenBucket.init])
    (by constructor
        · exact ⟨le_refl 0, by intro h; norm_num [TokenBucket.init, TokenBucket.refill] at h⟩
        · refine ⟨⟨le_refl 0, ?_⟩, trivial⟩
          intro h
          norm_num [TokenBucket.init, TokenBucket.refill, TokenBucket.acquire] at h)

/-- Membership in an insertion-sorted list. -/
theorem mem_insertSorted (a s : String) (l : List String) :
    a ∈ insertSorted s l ↔ a = s ∨ a ∈ l := by
  induction l with
  | nil => simp [insertSorted]
  | cons t ts ih =>
    simp only [insertSorted]
    by_cases hlt : s < t
    · simp [hlt]
    · simp only [hlt, if_false, reduceIte, List.mem_cons, ih]
      tauto

/-- Sorting preserves membership. -/
theorem mem_sortStrings (a : String) (l : List String) :
    a ∈ sortStrings l ↔ a ∈ l := by
  induction l with
  | nil => simp [sortStrings]
  | cons s ss ih => simp [sortStrings, mem_insertSorted, ih]

/-- Every joined part occurs verbatim inside the joined string. -/
theorem joinWith_mem_infix (sep a : String) (l : List String) (h : a ∈ l) :
    ∃ p q, joinWith sep l = p ++ a ++ q := by
  induction l with
  | nil => cases h
  | cons s rest ih =>
    cases rest with
    | nil =>
      have ha : a = s := by simpa using h
      subst ha
      refine ⟨"", "", ?_⟩
      apply String.ext
      simp [joinWith, String.data_append]
    | cons t rest2 =>
      rcases List.mem_cons.mp h with rfl | h2
      · refine ⟨"", sep ++ joinWith sep (t :: rest2), ?_⟩
        apply String.ext
        simp [joinWith, String.data_append, List.append_assoc]
      · obtain ⟨p, q, hpq⟩ := ih h2
        refine ⟨s ++ sep ++ p, q, ?_⟩
        apply String.ext
        simp [joinWith, hpq, String.data_append, List.append_assoc]

/-- C9: for the RB2B adapter in API mode (the `mode` config key absent or
anything other than `"file"`), a `resource_type` outside the
`ENRICHMENT_ENDPOINTS` whitelist makes the page fetch raise before any
outbound HTTP request is issued (the request count is 0); the error message
contains every valid endpoint name; and `fetch_data` driven by this page
fetch therefore returns `success = false`. -/
theorem C9_unknown_endpoint_fails_before_network
    (endpoint : String) (configGet : String → Option String)
    (readFileDump : Unit → Except String (List ρ))
    (doRequest : String → String → Except String (RB2BResults ρ))
    (request : FetchRequest)
    (hmode : (configGet "mode").getD "api" ≠ "file")
    (hunknown : (ENRICHMENT_ENDPOINTS.map Prod.fst).contains endpoint = false)
    (hpages : 1 ≤ request.maxPages) :
    rb2bFetchPage configGet endpoint readFileDump doRequest =
      (.error (rb2bUnknownMsg endpoint), 0) ∧
    (∀ k ∈ ENRICHMENT_ENDPOINTS.map Prod.fst,
      ∃ p q, rb2bUnknownMsg endpoint = p ++ k ++ q) ∧
    (fetchData (.ok ())
      (fun _ _ => (rb2bFetchPage configGet endpoint readFileDump doRequest).1)
      request).success = false := by
  have hpage : rb2bFetchPage configGet endpoint readFileDump doRequest =
      (.error (rb2bUnknownMsg endpoint), 0) := by
    have hmode2 : ((configGet "mode").getD "api" = "file") = False := by
      simp [hmode]
    simp only [rb2bFetchPage, rb2bEnrich, hmode2, if_false, reduceIte,
      hunknown, Bool.false_eq_true]
  refine ⟨hpage, ?_, ?_⟩
  · intro k hk
    have hks : k ∈ sortStrings (ENRICHMENT_ENDPOINTS.map Prod.fst) :=
      (mem_sortStrings k _).mpr hk
    obtain ⟨p, q, hpq⟩ := joinWith_mem_infix ", " k _ hks
    refine ⟨"Unknown RB2B resource_type " ++ pyQuote endpoint
      ++ ". Valid types: " ++ p, q, ?_⟩
    apply String.ext
    simp [rb2bUnknownMsg, rb2bValidTypes, hpq, String.data_append,
      List.append_assoc]
  · obtain ⟨k, hk⟩ : ∃ k, request.maxPages = k + 1 :=
      ⟨request.maxPages - 1, by omega⟩
    simp [fetchData, hk, fetchLoop, hpage]

/-- Witness for C9 at a concrete unknown endpoint in API mode. -/
theorem C9_witness :
    rb2bFetchPage (ρ := Nat) (fun _ => none) "bogus_endpoint"
      (fun _ => .ok []) (fun _ _ => .ok .missing) =
      (.error (rb2bUnknownMsg "bogus_endpoint"), 0) ∧
    (∀ k ∈ ENRICHMENT_ENDPOINTS.map Prod.fst,
      ∃ p q, rb2bUnknownMsg "bogus_endpoint" = p ++ k ++ q) ∧
    (fetchData (.ok ())
      (fun _ _ => (rb2bFetchPage (ρ := Nat) (fun _ => none) "bogus_endpoint"
        (fun _ => .ok []) (fun _ _ => .ok .missing)).1)
      ⟨"s", 5⟩).success = false :=
  C9_unknown_endpoint_fails_before_network "bogus_endpoint" (fun _ => none)
    (fun _ => .ok []) (fun _ _ => .ok .missing) ⟨"s", 5⟩
    (by decide) (by decide) (by decide)

/-- C10: whenever `fetch_data` returns a failure result, the returned
`FetchResult` has `has_more = false` — both failure constructions omit
`has_more` and take the model default, even if a next cursor was pending at
the moment of failure. -/
theorem C10_failure_result_has_more_false (clientRes : Except String Unit)
    (provider : PageFetcher α) (request : FetchRequest)
    (h : (fetchData clientRes provider request).success = false) :
    (fetchData clientRes provider request).hasMore = false := by
  cases clientRes with
  | error e => simp [fetchData]
  | ok u =>
    simp only [fetchData] at h ⊢
    cases herr : (fetchLoop provider request.maxPages 0 [] none).err with
    | some e => simp [herr]
    | none => simp [herr] at h

/-- A provider whose first page fetch raises. -/
def providerC10 : PageFetcher Nat := fun _ _ => .error "page exploded"

/-- Witness for C10 at a concrete failing fetch. -/
theorem C10_witness :
    (fetchData (.ok ()) providerC10 ⟨"s", 1⟩).hasMore = false :=
  C10_failure_result_has_more_false (.ok ()) providerC10 ⟨"s", 1⟩ (by decide)
